import Mathlib

/-!
Shallow embedding of `src/lib/extension/otaUpdate.ts` (OTA update extension):
the per-device update ledger kept in the state store, the in-progress set,
the last-checked map, the MQTT command handler `onMQTTMessage`, the
device-signal handler `onZigbeeEvent`, the payload builder
`getEntityPublishPayload`, and the startup recovery loop in `start`.

External collaborators (OTA provider, MQTT transport, zigbee device I/O,
state-store persistence) are modelled as inputs (their outcomes) and as
emitted `Effect`s.  JavaScript numbers carried by progress callbacks are
modelled as `Rat`; version identifiers as `Int`; timestamps (`Date.now()`,
milliseconds) as `Int`.
-/

namespace OTA

/-- `type UpdateState = 'updating' | 'idle' | 'available'` (otaUpdate.ts line 24). -/
inductive UpdateState where
  | updating
  | idle
  | available
deriving DecidableEq, Repr

/-- The per-device `update` object stored in the state store: the fields that
`otaUpdate.ts` reads and writes (`state`, `installed_version`,
`latest_version`, `progress`, `remaining`).  `installed_version` /
`latest_version` are `number | null`; `progress` / `remaining` are present
only transiently.  `remaining` is stored rounded (`Math.round`) so it is an
`Int` in the store. -/
structure DeviceUpdate where
  state : UpdateState
  installed_version : Option Int
  latest_version : Option Int
  progress : Option Rat
  remaining : Option Int
deriving DecidableEq, Repr

/-- The `update` object of an outward `UpdatePayload` (otaUpdate.ts lines 25-32). -/
structure PayloadUpdate where
  state : UpdateState
  installed_version : Option Int
  latest_version : Option Int
  progress : Option Rat
  remaining : Option Int
deriving DecidableEq, Repr

/-- `interface UpdatePayload` (otaUpdate.ts lines 25-32): `update_available`
is set only when the legacy API is enabled. -/
structure UpdatePayload where
  update : PayloadUpdate
  update_available : Option Bool
deriving DecidableEq, Repr

/-- `zhc.OtaUpdateAvailableResult`: result of the provider's
`isUpdateAvailable` query. -/
structure OtaUpdateAvailableResult where
  available : Bool
  currentFileVersion : Int
  otaFileVersion : Int
deriving DecidableEq, Repr

/-- The `state` argument of `getEntityPublishPayload`
(`zhc.OtaUpdateAvailableResult | UpdateState`). -/
inductive StateArg where
  | str (s : UpdateState)
  | result (r : OtaUpdateAvailableResult)
deriving DecidableEq, Repr

/-- JavaScript `Math.round`: round half away from zero towards plus
infinity, i.e. `Math.round(x) = floor(x + 0.5)`. -/
def jsRound (q : Rat) : Int := ⌊q + 1/2⌋

/-- `getEntityPublishPayload` (otaUpdate.ts lines 143-162).  `stored` is
`this.state.get(device).update` at call time (`none` when the device state
has no `update` object); `legacyApi` is `this.legacyApi`.  `progress` and
`remaining` default to `null` in the source, hence `Option`. -/
def getEntityPublishPayload (legacyApi : Bool) (stored : Option DeviceUpdate)
    (state : StateArg) (progress : Option Rat) (remaining : Option Rat) :
    UpdatePayload :=
  { update :=
      { state :=
          match state with
          | .str s => s
          | .result r => if r.available then .available else .idle
        installed_version :=
          match state with
          | .str _ => stored.bind (·.installed_version)
          | .result r => some r.currentFileVersion
        latest_version :=
          match state with
          | .str _ => stored.bind (·.latest_version)
          | .result r => some r.otaFileVersion
        progress := progress
        remaining := remaining.map jsRound }
    update_available :=
      if legacyApi then
        some (match state with
          | .str s => s = UpdateState.available
          | .result r => r.available)
      else none }

/-- The slice of the settings that `otaUpdate.ts` reads.  `legacyApi` stands
for both `this.legacyApi` (captured at construction) and
`settings.get().advanced.legacy_api` (read again at several call sites);
settings do not change during a run, so one field models both reads.
`updateCheckInterval` is `settings.get().ota.update_check_interval`, in
minutes. -/
structure Config where
  baseTopic : String
  legacyApi : Bool
  disableAutomaticUpdateCheck : Bool
  updateCheckInterval : Int
deriving Repr

/-- The slice of a resolved `Device` that `otaUpdate.ts` reads:
`ieeeAddr`, `name`, whether `device.definition` is set, and whether
`device.definition.ota` is set. -/
structure DeviceInfo where
  ieeeAddr : String
  name : String
  hasDefinition : Bool
  hasOta : Bool
deriving DecidableEq, Repr

/-- Mutable state of the extension: `this.inProgress` (a `Set` of ieee
addresses), `this.lastChecked` (ieee address → `Date.now()` timestamp), and
the per-device `update` object held in the state store
(`this.state.get(device).update`). -/
structure OTAState where
  inProgress : String → Bool
  lastChecked : String → Option Int
  stateStore : String → Option DeviceUpdate

/-- Pointwise update of a string-keyed map. -/
def updMap {α : Type} (f : String → α) (k : String) (v : α) : String → α :=
  fun x => if x = k then v else f x

/-- `e.message` / `e.stack` of a caught JavaScript error. -/
structure ErrInfo where
  message : String
  stack : String
deriving DecidableEq, Repr

/-- `{softwareBuildID, dateCode}` returned by
`readSoftwareBuildIDAndDateCode` (otaUpdate.ts lines 132-141); the whole
value is `null` (`none`) when the read fails.  The snake-casing applied by
`utils.toSnakeCase` before the value is placed in the response only renames
keys, so it is the identity here. -/
structure BuildInfo where
  softwareBuildID : String
  dateCode : String
deriving DecidableEq, Repr

/-- The `meta` object of a legacy `bridge/log` publication.  Extra fields
some statuses carry (`progress`, `from`, `to`) are elided: no claim
mentions them. -/
structure LogMeta where
  status : String
  device : String
deriving DecidableEq, Repr

/-- `responseData` built by `onMQTTMessage` (otaUpdate.ts line 173):
`{id, updateAvailable?, from?, to?}`. -/
structure ResponseData where
  id : String
  updateAvailable : Option Bool
  fromBuild : Option BuildInfo
  toBuild : Option BuildInfo
deriving DecidableEq, Repr

/-- Modelled from the spec: `utils.getResponse` is not under `src/`; per the
spec the structured response body is `{ data: {...}, status: 'ok'|'error',
error? }`, with `error` the human-readable message when present. -/
structure BridgeResponse where
  data : ResponseData
  status : String
  error : Option String
deriving DecidableEq, Repr

/-- Observable effects of one handler run, in program order: state-store
publications (`publishEntityState`), legacy `bridge/log` publications,
structured responses, event-bus emissions, invocations of the external OTA
provider (`isUpdateAvailable` / `updateToLatest`), the zigbee
`queryNextImageResponse` command sent back to a device, and log lines. -/
inductive Effect where
  | publishState (ieee : String) (payload : UpdatePayload)
  | bridgeLog (typ : String) (message : String) (meta : LogMeta)
  | bridgeResponse (topic : String) (resp : BridgeResponse)
  | emitReconfigure (ieee : String)
  | emitDevicesChanged
  | otaQuery (ieee : String)
  | otaUpdateCall (ieee : String)
  | deviceAck (ieee : String) (status : Nat)
  | logInfo (msg : String)
  | logDebug (msg : String)
  | logError (msg : String)
deriving DecidableEq, Repr

/-- Modelled from the spec: `publishEntityState` (inherited from the
extension base class, not under `src/`) merges the payload into the
device's State Store record and publishes it; the merge is field-by-field,
so fields absent from the payload (`progress` / `remaining` when not
provided) are retained — which is why the source deletes them explicitly in
`removeProgressAndRemainingFromState`. -/
def mergeUpdate (old : Option DeviceUpdate) (p : PayloadUpdate) : DeviceUpdate :=
  { state := p.state
    installed_version := p.installed_version
    latest_version := p.latest_version
    progress :=
      match p.progress with
      | some x => some x
      | none => old.bind (·.progress)
    remaining :=
      match p.remaining with
      | some x => some x
      | none => old.bind (·.remaining) }

/-- State-store half of `publishEntityState` (see `mergeUpdate`); the
publication itself is the `Effect.publishState` emitted at each call site. -/
def mergePublish (st : OTAState) (ieee : String) (payload : UpdatePayload) :
    OTAState :=
  { st with
    stateStore := updMap st.stateStore ieee
      (some (mergeUpdate (st.stateStore ieee) payload.update)) }

/-- `removeProgressAndRemainingFromState` (otaUpdate.ts lines 75-78):
deletes `progress` and `remaining` from the device's `update` object when
one exists. -/
def removeProgressAndRemainingFromState (st : OTAState) (ieee : String) :
    OTAState :=
  { st with
    stateStore := updMap st.stateStore ieee
      ((st.stateStore ieee).map
        (fun r => { r with progress := none, remaining := none })) }

/-- ASCII lower-casing of one character (the case folding the regex `i`
flag performs on these all-ASCII topic patterns). -/
def lowerChar (c : Char) : Char :=
  if 65 ≤ c.toNat ∧ c.toNat ≤ 90 then Char.ofNat (c.toNat + 32) else c

/-- ASCII lower-casing of a string. -/
def lowerStr (s : String) : String := ⟨s.data.map lowerChar⟩

/-- `s` starts with `p` (character-list implementation of
`String.startsWith`). -/
def strStartsWith (s p : String) : Bool := p.data.isPrefixOf s.data

/-- `legacyTopicRegex` (otaUpdate.ts line 34):
`^{base}/bridge/ota_update/.+$` — anchored at both ends, case-sensitive;
`.+` requires at least one character after the prefix (the regex-newline
subtlety of `.` is irrelevant to MQTT topics and elided). -/
def matchesLegacyTopic (base topic : String) : Bool :=
  strStartsWith topic (base ++ "/bridge/ota_update/")
    && (base ++ "/bridge/ota_update/").length < topic.length

/-- `topicRegex` (otaUpdate.ts lines 35-36):
`^{base}/bridge/request/device/ota_update/(update|check)` with the `i`
flag — anchored only at the start and matched case-insensitively, so a
topic is accepted exactly when, after lowercasing, it begins with the
prefix followed by `update` or `check` (anything may follow).  The base
topic is taken literally (regex metacharacters in a base topic are out of
scope). -/
def matchesCurrentTopic (base topic : String) : Bool :=
  strStartsWith (lowerStr topic)
      (lowerStr (base ++ "/bridge/request/device/ota_update/update"))
    || strStartsWith (lowerStr topic)
      (lowerStr (base ++ "/bridge/request/device/ota_update/check"))

/-- The guard of `onMQTTMessage` (otaUpdate.ts line 165), de-Morganed:
the message is handled when it matches the legacy topic (and the legacy API
is on) or matches the current topic. -/
def topicAccepted (cfg : Config) (topic : String) : Bool :=
  (cfg.legacyApi && matchesLegacyTopic cfg.baseTopic topic)
    || matchesCurrentTopic cfg.baseTopic topic

/-- `data.topic.substring(data.topic.lastIndexOf('/') + 1)`
(otaUpdate.ts line 172): everything after the last `/` (the whole topic
when there is none). -/
def lastSegment (topic : String) : String :=
  ⟨topic.data.foldl (fun acc c => if c = '/' then [] else acc ++ [c]) []⟩

/-- The slice of `eventdata.DeviceMessage` that `onZigbeeEvent` reads:
whether `data.type === 'commandQueryNextImageRequest'`, and the device. -/
structure DeviceMessage where
  isQueryNextImageRequest : Bool
  device : DeviceInfo
deriving Repr

/-- The fixed `NO_IMAGE_AVAILABLE` response sent back to the device
(otaUpdate.ts lines 126-129). -/
def noImageAck (d : DeviceInfo) : List Effect :=
  [Effect.deviceAck d.ieeeAddr 0x98,
   Effect.logDebug ("Responded to OTA request of '" ++ d.name ++
     "' with 'NO_IMAGE_AVAILABLE'")]

/-- `onZigbeeEvent` (otaUpdate.ts lines 80-130).  `now` is `Date.now()`;
`availOutcome` is the outcome the provider's `isUpdateAvailable` would
produce if invoked (the `Effect.otaQuery` records whether it actually is). -/
def onZigbeeEvent (cfg : Config) (st : OTAState) (data : DeviceMessage)
    (now : Int) (availOutcome : Except ErrInfo OtaUpdateAvailableResult) :
    OTAState × List Effect :=
  if !data.isQueryNextImageRequest || !data.device.hasDefinition
      || st.inProgress data.device.ieeeAddr then
    (st, [])
  else
    let d := data.device
    let eff0 := [Effect.logDebug ("Device '" ++ d.name ++ "' requested OTA")]
    if d.hasOta && !cfg.disableAutomaticUpdateCheck then
      let updateCheckInterval := cfg.updateCheckInterval * 1000 * 60
      let check :=
        match st.lastChecked d.ieeeAddr with
        | some t => decide (now - t > updateCheckInterval)
        | none => true
      if !check then (st, eff0)
      else
        let st1 := { st with lastChecked := updMap st.lastChecked d.ieeeAddr (some now) }
        let availableResult : Option OtaUpdateAvailableResult :=
          match availOutcome with
          | .ok r => some r
          | .error _ => none
        let eff1 :=
          match availOutcome with
          | .ok _ => [Effect.otaQuery d.ieeeAddr]
          | .error e =>
              [Effect.otaQuery d.ieeeAddr,
               Effect.logDebug ("Failed to check if update available for '" ++
                 d.name ++ "' (" ++ e.message ++ ")")]
        let stateArg :=
          match availableResult with
          | some r => StateArg.result r
          | none => StateArg.str .idle
        let payload := getEntityPublishPayload cfg.legacyApi
          (st1.stateStore d.ieeeAddr) stateArg none none
        let st2 := mergePublish st1 d.ieeeAddr payload
        let eff2 :=
          match availableResult with
          | some r =>
              if r.available then
                [Effect.logInfo ("Update available for '" ++ d.name ++ "'")] ++
                  (if cfg.legacyApi then
                    [Effect.bridgeLog "ota_update"
                      ("Update available for '" ++ d.name ++ "'")
                      ⟨"available", d.name⟩]
                  else [])
              else []
          | none => []
        (st2, eff0 ++ eff1 ++ [Effect.publishState d.ieeeAddr payload] ++ eff2
          ++ noImageAck d)
    else
      (st, eff0 ++ noImageAck d)

/-- Result of one dispatched check or update flow inside `onMQTTMessage`:
the mutated state, the effects, the fields the flow added to
`responseData`, and `error` / `errorStack`. -/
structure FlowResult where
  state : OTAState
  effects : List Effect
  updateAvailable : Option Bool
  fromBuild : Option BuildInfo
  toBuild : Option BuildInfo
  error : Option String
  errorStack : Option String

/-- The `type === 'check'` branch of `onMQTTMessage` (otaUpdate.ts lines
195-239).  `outcome` is what the provider's `isUpdateAvailable` produces. -/
def checkFlow (cfg : Config) (st : OTAState) (d : DeviceInfo)
    (outcome : Except ErrInfo OtaUpdateAvailableResult) (now : Int) :
    FlowResult :=
  let msg := "Checking if update available for '" ++ d.name ++ "'"
  let eff0 := [Effect.logInfo msg] ++
    (if cfg.legacyApi then
      [Effect.bridgeLog "ota_update" msg ⟨"checking_if_available", d.name⟩]
    else [])
  match outcome with
  | .ok r =>
      let msg2 := (if r.available then "Update" else "No update") ++
        " available for '" ++ d.name ++ "'"
      let eff1 := [Effect.otaQuery d.ieeeAddr, Effect.logInfo msg2] ++
        (if cfg.legacyApi then
          [Effect.bridgeLog "ota_update" msg2
            ⟨if r.available then "available" else "not_available", d.name⟩]
        else [])
      let payload := getEntityPublishPayload cfg.legacyApi
        (st.stateStore d.ieeeAddr) (.result r) none none
      let st1 := mergePublish st d.ieeeAddr payload
      let st2 := { st1 with
        lastChecked := updMap st1.lastChecked d.ieeeAddr (some now) }
      { state := st2
        effects := eff0 ++ eff1 ++ [Effect.publishState d.ieeeAddr payload]
        updateAvailable := some r.available
        fromBuild := none, toBuild := none, error := none, errorStack := none }
  | .error e =>
      let err := "Failed to check if update available for '" ++ d.name ++
        "' (" ++ e.message ++ ")"
      let eff1 := [Effect.otaQuery d.ieeeAddr] ++
        (if cfg.legacyApi then
          [Effect.bridgeLog "ota_update" err ⟨"check_failed", d.name⟩]
        else [])
      { state := st
        effects := eff0 ++ eff1
        updateAvailable := none
        fromBuild := none, toBuild := none
        error := some err, errorStack := some e.stack }

/-- One invocation of the `onProgress` callback (otaUpdate.ts lines
254-270): log, build an `updating` payload with the new `progress` and
`remaining`, publish it, and in legacy mode publish an `update_progress`
log.  The numeric rendering of the log text (`toFixed(2)`, minutes) is
approximated by `toString`; no claim depends on the log text. -/
def progressStep (cfg : Config) (d : DeviceInfo) (st : OTAState)
    (pr : Rat × Rat) : OTAState × List Effect :=
  let msg := "Update of '" ++ d.name ++ "' at " ++ toString pr.1 ++ "%" ++
    (if pr.2 = 0 then "" else
      ", = " ++ toString (jsRound (pr.2 / 60)) ++ " minutes remaining")
  let payload := getEntityPublishPayload cfg.legacyApi
    (st.stateStore d.ieeeAddr) (.str .updating) (some pr.1) (some pr.2)
  let st1 := mergePublish st d.ieeeAddr payload
  (st1, [Effect.logInfo msg, Effect.publishState d.ieeeAddr payload] ++
    (if cfg.legacyApi then
      [Effect.bridgeLog "ota_update" msg ⟨"update_progress", d.name⟩]
    else []))

/-- Folds the provider-driven sequence of `onProgress` invocations. -/
def progressFold (cfg : Config) (d : DeviceInfo) (st : OTAState)
    (calls : List (Rat × Rat)) : OTAState × List Effect :=
  calls.foldl
    (fun acc pr =>
      let step := progressStep cfg d acc.1 pr
      (step.1, acc.2 ++ step.2))
    (st, [])

/-- The `type === 'update'` branch of `onMQTTMessage` (otaUpdate.ts lines
240-306).  `progressCalls` is the sequence of `onProgress` invocations the
provider makes during `updateToLatest`; `fromRead` is the pre-update
`readSoftwareBuildIDAndDateCode` (that helper catches internally and never
throws); `result` is `updateToLatest`'s outcome; `toRead` is the post-update
identity read, relevant only on success.  The JSON rendering of `from`/`to`
in the two info-log texts is elided; the legacy `update_succeeded` log's
`message` field is the raw request message (source line 290 captures the
outer `message`, not the local `msg`). -/
def updateFlow (cfg : Config) (st : OTAState) (d : DeviceInfo)
    (rawMessage : String) (progressCalls : List (Rat × Rat))
    (fromRead : Option BuildInfo) (result : Except ErrInfo Int)
    (toRead : Option BuildInfo) : FlowResult :=
  let msg := "Updating '" ++ d.name ++ "' to latest firmware"
  let eff0 := [Effect.logInfo msg] ++
    (if cfg.legacyApi then
      [Effect.bridgeLog "ota_update" msg ⟨"update_in_progress", d.name⟩]
    else [])
  let fold := progressFold cfg d st progressCalls
  let effHead := eff0 ++ [Effect.otaUpdateCall d.ieeeAddr] ++ fold.2
  match result with
  | .ok fileVersion =>
      let st2 := removeProgressAndRemainingFromState fold.1 d.ieeeAddr
      let payload := getEntityPublishPayload cfg.legacyApi
        (st2.stateStore d.ieeeAddr)
        (.result ⟨false, fileVersion, fileVersion⟩) none none
      let st3 := mergePublish st2 d.ieeeAddr payload
      { state := st3
        effects := effHead ++
          [Effect.logInfo ("Finished update of '" ++ d.name ++ "'"),
           Effect.emitReconfigure d.ieeeAddr,
           Effect.publishState d.ieeeAddr payload,
           Effect.logInfo ("Device '" ++ d.name ++ "' was updated"),
           Effect.emitDevicesChanged] ++
          (if cfg.legacyApi then
            [Effect.bridgeLog "ota_update" rawMessage
              ⟨"update_succeeded", d.name⟩]
          else [])
        updateAvailable := none
        fromBuild := fromRead, toBuild := toRead
        error := none, errorStack := none }
  | .error e =>
      let err := "Update of '" ++ d.name ++ "' failed (" ++ e.message ++ ")"
      let st2 := removeProgressAndRemainingFromState fold.1 d.ieeeAddr
      let payload := getEntityPublishPayload cfg.legacyApi
        (st2.stateStore d.ieeeAddr) (.str .available) none none
      let st3 := mergePublish st2 d.ieeeAddr payload
      { state := st3
        effects := effHead ++
          [Effect.logDebug ("Update of '" ++ d.name ++ "' failed (" ++
             e.message ++ ")"),
           Effect.publishState d.ieeeAddr payload] ++
          (if cfg.legacyApi then
            [Effect.bridgeLog "ota_update" err ⟨"update_failed", d.name⟩]
          else [])
        updateAvailable := none
        fromBuild := none, toBuild := none
        error := some err, errorStack := some e.stack }

/-- The slice of `eventdata.MQTTMessage` that `onMQTTMessage` reads:
the topic, the device identifier extracted from the body
(`message.id` when the body is an object with an `id`, else the bare
body), and the raw body (used only in the legacy `update_succeeded` log). -/
structure MQTTMessage where
  topic : String
  id : String
  raw : String
deriving Repr

/-- Inputs from the external collaborators during one `onMQTTMessage` run:
device resolution (`zigbee.resolveEntity`, `none` when unknown or not a
device), the provider outcomes for whichever flow is dispatched, the two
identity reads, and `Date.now()`. -/
structure MQTTEnv where
  resolveEntity : String → Option DeviceInfo
  checkOutcome : Except ErrInfo OtaUpdateAvailableResult
  progressCalls : List (Rat × Rat)
  fromRead : Option BuildInfo
  updateResult : Except ErrInfo Int
  toRead : Option BuildInfo
  now : Int

/-- `onMQTTMessage` (otaUpdate.ts lines 164-322): topic guard, device
resolution, the three pre-dispatch error branches, in-progress acquire /
dispatch / release, then the structured response (unless the request
arrived on the legacy topic) and error logging. -/
def onMQTTMessage (cfg : Config) (st : OTAState) (data : MQTTMessage)
    (env : MQTTEnv) : OTAState × List Effect :=
  if !topicAccepted cfg data.topic then (st, [])
  else
    let typ := lastSegment data.topic
    let run : FlowResult :=
      match env.resolveEntity data.id with
      | none =>
          { state := st, effects := []
            updateAvailable := none, fromBuild := none, toBuild := none
            error := some ("Device '" ++ data.id ++ "' does not exist")
            errorStack := none }
      | some d =>
          if !d.hasDefinition || !d.hasOta then
            { state := st
              effects :=
                if cfg.legacyApi then
                  [Effect.bridgeLog "ota_update"
                    ("Device '" ++ d.name ++ "' does not support OTA updates")
                    ⟨"not_supported", d.name⟩]
                else []
              updateAvailable := none, fromBuild := none, toBuild := none
              error := some ("Device '" ++ d.name ++
                "' does not support OTA updates")
              errorStack := none }
          else if st.inProgress d.ieeeAddr then
            { state := st, effects := []
              updateAvailable := none, fromBuild := none, toBuild := none
              error := some ("Update or check for update already in progress for '"
                ++ d.name ++ "'")
              errorStack := none }
          else
            let stA := { st with inProgress := updMap st.inProgress d.ieeeAddr true }
            let fr :=
              if typ = "check" then
                checkFlow cfg stA d env.checkOutcome env.now
              else
                updateFlow cfg stA d data.raw env.progressCalls env.fromRead
                  env.updateResult env.toRead
            { fr with state :=
                { fr.state with
                  inProgress := updMap fr.state.inProgress d.ieeeAddr false } }
    let effResp :=
      if matchesLegacyTopic cfg.baseTopic data.topic then []
      else
        [Effect.bridgeResponse ("bridge/response/device/ota_update/" ++ typ)
          { data := { id := data.id, updateAvailable := run.updateAvailable,
                      fromBuild := run.fromBuild, toBuild := run.toBuild }
            status := if run.error.isSome then "error" else "ok"
            error := run.error }]
    let effErr :=
      match run.error with
      | some e =>
          [Effect.logError e] ++
            (match run.errorStack with
             | some s => [Effect.logDebug s]
             | none => [])
      | none => []
    (run.state, run.effects ++ effResp ++ effErr)

/-- What the startup loop does to one device's record (otaUpdate.ts lines
66-72): drop `progress` / `remaining`, then coerce an `updating` state to
`available`. -/
def startRecoverRecord (r : DeviceUpdate) : DeviceUpdate :=
  let r1 : DeviceUpdate := { r with progress := none, remaining := none }
  if r1.state = .updating then { r1 with state := .available } else r1

/-- The startup recovery loop of `start` (otaUpdate.ts lines 64-72),
applied to the state store over the list of known devices. -/
def startRecover (store : String → Option DeviceUpdate)
    (devices : List String) : String → Option DeviceUpdate :=
  devices.foldl (fun s dev => updMap s dev ((s dev).map startRecoverRecord))
    store

/-! ## Helper lemmas -/

lemma updMap_self {α : Type} (f : String → α) (k : String) (v : α) :
    updMap f k v k = v := by
  simp [updMap]

lemma updMap_ne {α : Type} (f : String → α) (k : String) (v : α) {x : String}
    (h : x ≠ k) : updMap f k v x = f x := by
  simp [updMap, h]

/-- `Math.round` lands on an integer at distance at most one half: the
`remaining` field really is the argument rounded to a nearest integer. -/
lemma jsRound_nearest (q : Rat) : |(jsRound q : Rat) - q| ≤ 1/2 := by
  rw [abs_le]
  unfold jsRound
  constructor
  · have h := Int.lt_floor_add_one (q + 1/2)
    push_cast at h ⊢
    linarith
  · have h := Int.floor_le (q + 1/2)
    push_cast at h ⊢
    linarith

/-- Claim C8: the payload builder returns
`{ update: { state, installed_version, latest_version } }` where a string
state carries the device's stored versions and an availability result maps
`available` to `'available'`/`'idle'` with the result's versions; `progress`
is present exactly when provided; `remaining` is present exactly when
provided and is the provided value rounded to a nearest integer;
`update_available` is present exactly when legacy compatibility is enabled
and mirrors whether the state/result indicates an available update.  (The
builder is a pure function of its arguments, so it has no side effects by
construction.) -/
theorem ota_payload_builder_spec (legacyApi : Bool)
    (stored : Option DeviceUpdate) (state : StateArg)
    (progress remaining : Option Rat) :
    let p := getEntityPublishPayload legacyApi stored state progress remaining
    (p.update.state = match state with
      | .str s => s
      | .result r => if r.available then .available else .idle)
    ∧ (p.update.installed_version = match state with
      | .str _ => stored.bind (·.installed_version)
      | .result r => some r.currentFileVersion)
    ∧ (p.update.latest_version = match state with
      | .str _ => stored.bind (·.latest_version)
      | .result r => some r.otaFileVersion)
    ∧ (p.update.progress = progress)
    ∧ (p.update.remaining.isSome ↔ remaining.isSome)
    ∧ (∀ r, remaining = some r →
        p.update.remaining = some (jsRound r) ∧ |(jsRound r : Rat) - r| ≤ 1/2)
    ∧ (p.update_available.isSome ↔ legacyApi = true)
    ∧ (p.update_available = if legacyApi then
        some (match state with
          | .str s => decide (s = UpdateState.available)
          | .result r => r.available)
      else none) := by
  refine ⟨rfl, rfl, rfl, rfl, ?_, ?_, ?_, ?_⟩
  · cases remaining <;> simp [getEntityPublishPayload]
  · intro r hr
    subst hr
    exact ⟨rfl, jsRound_nearest r⟩
  · cases legacyApi <;> simp [getEntityPublishPayload]
  · cases legacyApi <;> cases state <;>
      simp [getEntityPublishPayload]

/-- Witness for C8 at a concrete input, exercising the inner implication at
`remaining = 7/2` (rounded to `4`). -/
theorem ota_payload_builder_spec_witness :
    (getEntityPublishPayload true
      (some ⟨.available, some 5, some 7, none, none⟩)
      (.str .available) (some 50) (some (7/2))).update.remaining
        = some (jsRound (7/2))
      ∧ |((jsRound (7/2) : Int) : Rat) - 7/2| ≤ 1/2 :=
  (ota_payload_builder_spec true
    (some ⟨.available, some 5, some 7, none, none⟩)
    (.str .available) (some 50) (some (7/2))).2.2.2.2.2.1 (7/2) rfl

/-- What the startup pass does to one existing record, spelled out. -/
lemma startRecoverRecord_eq (r : DeviceUpdate) :
    startRecoverRecord r =
      { state := if r.state = .updating then .available else r.state
        installed_version := r.installed_version
        latest_version := r.latest_version
        progress := none, remaining := none } := by
  unfold startRecoverRecord
  by_cases h : r.state = UpdateState.updating <;> simp [h]

lemma startRecoverRecord_idem (r : DeviceUpdate) :
    startRecoverRecord (startRecoverRecord r) = startRecoverRecord r := by
  by_cases h : r.state = UpdateState.updating <;>
    simp [startRecoverRecord_eq, h]

lemma startRecover_nil (store : String → Option DeviceUpdate) :
    startRecover store [] = store := rfl

lemma startRecover_cons (store : String → Option DeviceUpdate)
    (e : String) (rest : List String) :
    startRecover store (e :: rest) =
      startRecover (updMap store e ((store e).map startRecoverRecord)) rest :=
  rfl

/-- The startup pass acts pointwise: a device in the list gets its record
mapped through `startRecoverRecord`; any other key is untouched. -/
lemma startRecover_apply (store : String → Option DeviceUpdate)
    (devices : List String) (d : String) :
    startRecover store devices d =
      if d ∈ devices then (store d).map startRecoverRecord else store d := by
  induction devices generalizing store with
  | nil => simp [startRecover_nil]
  | cons e rest ih =>
      rw [startRecover_cons, ih]
      by_cases hd : d = e
      · subst hd
        by_cases hr : d ∈ rest
        · simp only [hr, if_true, updMap_self, Option.map_map,
            List.mem_cons, true_or]
          cases store d <;> simp [startRecoverRecord_idem, Function.comp]
        · simp [hr, updMap_self]
      · by_cases hr : d ∈ rest <;>
          simp [hr, updMap_ne store _ _ hd, hd]

/-- Claim C6: on startup, for every known device, `progress` and
`remaining` are removed from the stored update record and a record in state
`updating` is coerced to `available`; records in any other state keep their
state (and keep their versions); absent records stay absent; devices not in
the list are untouched. -/
theorem ota_start_recovery (store : String → Option DeviceUpdate)
    (devices : List String) (d : String) (h : d ∈ devices) :
    startRecover store devices d =
      (store d).map (fun r =>
        { state := if r.state = .updating then .available else r.state
          installed_version := r.installed_version
          latest_version := r.latest_version
          progress := none, remaining := none }) := by
  rw [startRecover_apply, if_pos h]
  cases store d with
  | none => rfl
  | some r => simp [startRecoverRecord_eq]

/-- Witness for C6: a device restarted mid-update (`updating`, with
`progress`/`remaining` set) comes back as `available` with both cleared. -/
theorem ota_start_recovery_witness :
    startRecover
      (fun x => if x = "0x1" then
        some ⟨.updating, some 5, some 7, some 50, some 600⟩ else none)
      ["0x1", "0x2"] "0x1" =
      some ⟨.available, some 5, some 7, none, none⟩ := by
  rw [ota_start_recovery
    (fun x => if x = "0x1" then
      some ⟨.updating, some 5, some 7, some 50, some 600⟩ else none)
    ["0x1", "0x2"] "0x1" (by decide)]
  rfl

/-! ## Structure of the progress-callback fold -/

lemma progressFold_aux (cfg : Config) (d : DeviceInfo) :
    ∀ (l : List (Rat × Rat)) (st : OTAState) (e0 : List Effect),
      l.foldl
        (fun acc pr =>
          let step := progressStep cfg d acc.1 pr
          (step.1, acc.2 ++ step.2))
        (st, e0)
      = ((progressFold cfg d st l).1, e0 ++ (progressFold cfg d st l).2) := by
  intro l
  induction l with
  | nil => intro st e0; simp [progressFold]
  | cons pr rest ih =>
      intro st e0
      show List.foldl _ ((progressStep cfg d st pr).1,
        e0 ++ (progressStep cfg d st pr).2) rest = _
      rw [ih]
      have h2 : progressFold cfg d st (pr :: rest)
          = ((progressFold cfg d (progressStep cfg d st pr).1 rest).1,
             (progressStep cfg d st pr).2 ++
               (progressFold cfg d (progressStep cfg d st pr).1 rest).2) := by
        show List.foldl _ ((progressStep cfg d st pr).1,
          [] ++ (progressStep cfg d st pr).2) rest = _
        rw [ih]
        simp
      rw [h2]
      simp

lemma progressFold_nil (cfg : Config) (d : DeviceInfo) (st : OTAState) :
    progressFold cfg d st [] = (st, []) := rfl

lemma progressFold_cons (cfg : Config) (d : DeviceInfo) (st : OTAState)
    (pr : Rat × Rat) (rest : List (Rat × Rat)) :
    progressFold cfg d st (pr :: rest)
      = ((progressFold cfg d (progressStep cfg d st pr).1 rest).1,
         (progressStep cfg d st pr).2 ++
           (progressFold cfg d (progressStep cfg d st pr).1 rest).2) := by
  show List.foldl _ ((progressStep cfg d st pr).1,
    [] ++ (progressStep cfg d st pr).2) rest = _
  rw [progressFold_aux]
  simp

lemma progressStep_inProgress (cfg : Config) (d : DeviceInfo)
    (st : OTAState) (pr : Rat × Rat) :
    (progressStep cfg d st pr).1.inProgress = st.inProgress := rfl

lemma progressStep_lastChecked (cfg : Config) (d : DeviceInfo)
    (st : OTAState) (pr : Rat × Rat) :
    (progressStep cfg d st pr).1.lastChecked = st.lastChecked := rfl

lemma progressFold_inProgress (cfg : Config) (d : DeviceInfo)
    (calls : List (Rat × Rat)) (st : OTAState) :
    (progressFold cfg d st calls).1.inProgress = st.inProgress := by
  induction calls generalizing st with
  | nil => rfl
  | cons pr rest ih => rw [progressFold_cons]; exact ih _

lemma progressFold_lastChecked (cfg : Config) (d : DeviceInfo)
    (calls : List (Rat × Rat)) (st : OTAState) :
    (progressFold cfg d st calls).1.lastChecked = st.lastChecked := by
  induction calls generalizing st with
  | nil => rfl
  | cons pr rest ih => rw [progressFold_cons]; exact ih _

lemma progressStep_stateStore_ne (cfg : Config) (d : DeviceInfo)
    (st : OTAState) (pr : Rat × Rat) {x : String} (h : x ≠ d.ieeeAddr) :
    (progressStep cfg d st pr).1.stateStore x = st.stateStore x := by
  simp [progressStep, mergePublish, updMap_ne _ _ _ h]

lemma progressFold_stateStore_ne (cfg : Config) (d : DeviceInfo)
    (calls : List (Rat × Rat)) (st : OTAState) {x : String}
    (h : x ≠ d.ieeeAddr) :
    (progressFold cfg d st calls).1.stateStore x = st.stateStore x := by
  induction calls generalizing st with
  | nil => rfl
  | cons pr rest ih =>
      rw [progressFold_cons]
      rw [ih _]
      exact progressStep_stateStore_ne cfg d st pr h

/-- Each progress publication is a string-state (`updating`) payload, so it
carries the stored `installed_version`/`latest_version` forward unchanged. -/
lemma progressStep_versions (cfg : Config) (d : DeviceInfo)
    (st : OTAState) (pr : Rat × Rat) :
    ((progressStep cfg d st pr).1.stateStore d.ieeeAddr).bind
        (·.installed_version)
      = (st.stateStore d.ieeeAddr).bind (·.installed_version)
    ∧ ((progressStep cfg d st pr).1.stateStore d.ieeeAddr).bind
        (·.latest_version)
      = (st.stateStore d.ieeeAddr).bind (·.latest_version) := by
  simp [progressStep, mergePublish, updMap_self, mergeUpdate,
    getEntityPublishPayload]

lemma progressFold_versions (cfg : Config) (d : DeviceInfo)
    (calls : List (Rat × Rat)) (st : OTAState) :
    ((progressFold cfg d st calls).1.stateStore d.ieeeAddr).bind
        (·.installed_version)
      = (st.stateStore d.ieeeAddr).bind (·.installed_version)
    ∧ ((progressFold cfg d st calls).1.stateStore d.ieeeAddr).bind
        (·.latest_version)
      = (st.stateStore d.ieeeAddr).bind (·.latest_version) := by
  induction calls generalizing st with
  | nil => exact ⟨rfl, rfl⟩
  | cons pr rest ih =>
      rw [progressFold_cons]
      obtain ⟨h1, h2⟩ := ih (progressStep cfg d st pr).1
      obtain ⟨g1, g2⟩ := progressStep_versions cfg d st pr
      exact ⟨h1.trans g1, h2.trans g2⟩

/-- Every effect of the progress fold is a publication or a log line;
counting any other kind of effect in it gives zero. -/
lemma progressFold_countP_zero (cfg : Config) (d : DeviceInfo)
    (calls : List (Rat × Rat)) (st : OTAState) (p : Effect → Bool)
    (hpub : ∀ i pl, p (.publishState i pl) = false)
    (hinfo : ∀ m, p (.logInfo m) = false)
    (hlog : ∀ t m mt, p (.bridgeLog t m mt) = false) :
    List.countP p (progressFold cfg d st calls).2 = 0 := by
  induction calls generalizing st with
  | nil => rfl
  | cons pr rest ih =>
      rw [progressFold_cons]
      rw [List.countP_append]
      rw [ih _]
      have hstep : List.countP p (progressStep cfg d st pr).2 = 0 := by
        unfold progressStep
        cases cfg.legacyApi <;>
          simp [List.countP_cons, hpub, hinfo, hlog, List.countP_append]
      omega

/-! ## Structure of the two dispatched flows and of `onMQTTMessage` -/

lemma checkFlow_inProgress (cfg : Config) (st : OTAState) (d : DeviceInfo)
    (o : Except ErrInfo OtaUpdateAvailableResult) (now : Int) :
    (checkFlow cfg st d o now).state.inProgress = st.inProgress := by
  cases o <;> rfl

lemma updateFlow_inProgress (cfg : Config) (st : OTAState) (d : DeviceInfo)
    (raw : String) (calls : List (Rat × Rat)) (fromR : Option BuildInfo)
    (result : Except ErrInfo Int) (toR : Option BuildInfo) :
    (updateFlow cfg st d raw calls fromR result toR).state.inProgress
      = st.inProgress := by
  cases result <;>
    simp [updateFlow, mergePublish, removeProgressAndRemainingFromState,
      progressFold_inProgress]

/-- Unfolding of `onMQTTMessage` on the dispatched (no pre-dispatch error)
path: acquire, run the flow selected by the final topic segment, release,
then respond and log. -/
lemma onMQTTMessage_dispatch (cfg : Config) (st : OTAState)
    (data : MQTTMessage) (env : MQTTEnv) (d : DeviceInfo)
    (hacc : topicAccepted cfg data.topic = true)
    (hres : env.resolveEntity data.id = some d)
    (hdef : d.hasDefinition = true) (hota : d.hasOta = true)
    (hip : st.inProgress d.ieeeAddr = false) :
    onMQTTMessage cfg st data env =
      (let stA : OTAState :=
        { st with inProgress := updMap st.inProgress d.ieeeAddr true }
       let fr : FlowResult :=
        if lastSegment data.topic = "check" then
          checkFlow cfg stA d env.checkOutcome env.now
        else
          updateFlow cfg stA d data.raw env.progressCalls env.fromRead
            env.updateResult env.toRead
       ({ fr.state with
          inProgress := updMap fr.state.inProgress d.ieeeAddr false },
        fr.effects ++
          (if matchesLegacyTopic cfg.baseTopic data.topic then []
           else
            [Effect.bridgeResponse
              ("bridge/response/device/ota_update/" ++ lastSegment data.topic)
              { data := ⟨data.id, fr.updateAvailable, fr.fromBuild, fr.toBuild⟩
                status := if fr.error.isSome then "error" else "ok"
                error := fr.error }]) ++
          (match fr.error with
           | some e =>
              [Effect.logError e] ++
                (match fr.errorStack with
                 | some s => [Effect.logDebug s]
                 | none => [])
           | none => []))) := by
  unfold onMQTTMessage
  rw [hacc]
  simp only [Bool.not_true, Bool.false_eq_true, if_false, hres, hdef, hota,
    Bool.not_true, Bool.or_self, hip]

/-! ## Concrete fixtures used by witnesses and counterexamples -/

/-- Settings with the legacy API enabled. -/
def cfg1 : Config := ⟨"zigbee2mqtt", true, false, 1440⟩

/-- Settings with the legacy API disabled. -/
def cfg2 : Config := ⟨"zigbee2mqtt", false, false, 1440⟩

/-- A resolvable device that supports OTA. -/
def dev1 : DeviceInfo := ⟨"0x1", "Dev", true, true⟩

/-- A resolvable device whose definition lacks the `ota` capability. -/
def devNoOta : DeviceInfo := ⟨"0x1", "Dev", true, false⟩

/-- A stored record with an update pending. -/
def record1 : DeviceUpdate := ⟨.available, some 5, some 7, none, none⟩

/-- Empty extension state. -/
def st0 : OTAState := ⟨fun _ => false, fun _ => none, fun _ => none⟩

/-- State holding `record1` for device `0x1`. -/
def st1 : OTAState :=
  ⟨fun _ => false, fun _ => none,
   fun x => if x = "0x1" then some record1 else none⟩

/-- State with device `0x1` in the in-progress set. -/
def stBusy : OTAState :=
  ⟨fun x => decide (x = "0x1"), fun _ => none, fun _ => none⟩

/-- Current-protocol check topic for the default base topic. -/
def topicCheck : String := "zigbee2mqtt/bridge/request/device/ota_update/check"

/-- Current-protocol update topic for the default base topic. -/
def topicUpdate : String :=
  "zigbee2mqtt/bridge/request/device/ota_update/update"

/-- Resolver knowing only the identifier `A` (as `dev1`). -/
def resolve1 : String → Option DeviceInfo :=
  fun i => if i = "A" then some dev1 else none

/-! ## Claim C1 -/

/-- Claim C1: once a device's identifier is in the in-progress set, any
further request for it — check or update alike (the conclusion holds for
every final topic segment) — returns the
"Update or check for update already in progress" error and nothing else:
the extension state is returned unchanged (so no state is mutated, nothing
is queued, and every other device's membership and records are untouched),
and the only effects are the error response (absent on a legacy-topic
request) and the error log line. -/
theorem ota_inprogress_request_rejected (cfg : Config) (st : OTAState)
    (data : MQTTMessage) (env : MQTTEnv) (d : DeviceInfo)
    (hacc : topicAccepted cfg data.topic = true)
    (hres : env.resolveEntity data.id = some d)
    (hdef : d.hasDefinition = true) (hota : d.hasOta = true)
    (hip : st.inProgress d.ieeeAddr = true) :
    onMQTTMessage cfg st data env =
      (st,
        (if matchesLegacyTopic cfg.baseTopic data.topic then []
         else
          [Effect.bridgeResponse
            ("bridge/response/device/ota_update/" ++ lastSegment data.topic)
            { data := ⟨data.id, none, none, none⟩
              status := "error"
              error := some ("Update or check for update already in progress for '"
                ++ d.name ++ "'") }])
        ++ [Effect.logError ("Update or check for update already in progress for '"
            ++ d.name ++ "'")]) := by
  unfold onMQTTMessage
  rw [hacc]
  simp [hres, hdef, hota, hip]

/-- Witness for C1: a check request for busy device `0x1` leaves the state
untouched and yields only the error response and log line. -/
theorem ota_inprogress_request_rejected_witness :
    onMQTTMessage cfg2 stBusy ⟨topicCheck, "A", "raw"⟩
      { resolveEntity := resolve1, checkOutcome := .ok ⟨true, 5, 7⟩
        progressCalls := [], fromRead := none, updateResult := .ok 9
        toRead := none, now := 100 } =
      (stBusy,
        (if matchesLegacyTopic cfg2.baseTopic topicCheck then []
         else
          [Effect.bridgeResponse
            ("bridge/response/device/ota_update/" ++ lastSegment topicCheck)
            { data := ⟨"A", none, none, none⟩
              status := "error"
              error := some ("Update or check for update already in progress for '"
                ++ dev1.name ++ "'") }])
        ++ [Effect.logError ("Update or check for update already in progress for '"
            ++ dev1.name ++ "'")]) :=
  ota_inprogress_request_rejected cfg2 stBusy ⟨topicCheck, "A", "raw"⟩
    { resolveEntity := resolve1, checkOutcome := .ok ⟨true, 5, 7⟩
      progressCalls := [], fromRead := none, updateResult := .ok 9
      toRead := none, now := 100 } dev1
    (by decide) (by decide) rfl rfl (by decide)

/-! ## Claim C2 -/

/-- Claim C2: a dispatched check or update always releases the in-progress
entry when the flow completes, on every outcome (the provider outcomes in
`env` are arbitrary) — after the handler finishes, the in-progress set is
exactly what it was before the request, for every device. -/
theorem ota_inprogress_released_on_completion (cfg : Config) (st : OTAState)
    (data : MQTTMessage) (env : MQTTEnv) (d : DeviceInfo)
    (hacc : topicAccepted cfg data.topic = true)
    (hres : env.resolveEntity data.id = some d)
    (hdef : d.hasDefinition = true) (hota : d.hasOta = true)
    (hip : st.inProgress d.ieeeAddr = false) :
    ∀ x, (onMQTTMessage cfg st data env).1.inProgress x = st.inProgress x := by
  intro x
  rw [onMQTTMessage_dispatch cfg st data env d hacc hres hdef hota hip]
  dsimp only
  by_cases htyp : lastSegment data.topic = "check"
  · rw [if_pos htyp, checkFlow_inProgress]
    by_cases hx : x = d.ieeeAddr
    · subst hx; simp [updMap, hip]
    · simp [updMap, hx]
  · rw [if_neg htyp, updateFlow_inProgress]
    by_cases hx : x = d.ieeeAddr
    · subst hx; simp [updMap, hip]
    · simp [updMap, hx]

/-- Witness for C2: after a failing update request for idle device `0x1`,
its in-progress entry is gone again. -/
theorem ota_inprogress_released_on_completion_witness :
    (onMQTTMessage cfg2 st1 ⟨topicUpdate, "A", "raw"⟩
      { resolveEntity := resolve1, checkOutcome := .ok ⟨true, 5, 7⟩
        progressCalls := [(50, 90)], fromRead := none
        updateResult := .error ⟨"boom", "STACKLINE"⟩
        toRead := none, now := 100 }).1.inProgress "0x1"
      = st1.inProgress "0x1" :=
  ota_inprogress_released_on_completion cfg2 st1 ⟨topicUpdate, "A", "raw"⟩
    { resolveEntity := resolve1, checkOutcome := .ok ⟨true, 5, 7⟩
      progressCalls := [(50, 90)], fromRead := none
      updateResult := .error ⟨"boom", "STACKLINE"⟩
      toRead := none, now := 100 } dev1
    (by decide) (by decide) rfl rfl (by decide) "0x1"

/-! ## Claim C3 -/

/-- State in which device `0x1` has a last-checked entry at time `0`. -/
def stChecked : OTAState :=
  ⟨fun _ => false,
   fun x => if x = "0x1" then some 0 else none,
   fun _ => none⟩

/-- Counterexample to C3 as stated: a handled "requesting next image"
signal (gate passed: right type, device has a definition, not in
progress) from an OTA-capable device, automatic checking enabled, but
arriving 5 minutes after the device's last-checked entry with a 1440-minute
interval.  The rate limit skips the availability query by returning early,
and the handler's entire output is the one debug log line — no
`queryNextImageResponse` negative acknowledgment is sent to the device. -/
theorem ota_ack_rate_limit_cex :
    (onZigbeeEvent cfg1 stChecked ⟨true, dev1⟩ 300000 (.ok ⟨true, 5, 7⟩)).2
      = [Effect.logDebug "Device 'Dev' requested OTA"]
    ∧ Effect.deviceAck "0x1" 0x98 ∉
        (onZigbeeEvent cfg1 stChecked ⟨true, dev1⟩ 300000 (.ok ⟨true, 5, 7⟩)).2 := by
  decide

/-- The condition under which the automatic-check rate limit makes
`onZigbeeEvent` return early (otaUpdate.ts line 94): OTA-capable device,
automatic checking enabled, an existing last-checked entry, and elapsed
time not exceeding the configured interval. -/
def autoCheckRateLimited (cfg : Config) (st : OTAState) (d : DeviceInfo)
    (now : Int) : Bool :=
  d.hasOta && !cfg.disableAutomaticUpdateCheck &&
    (match st.lastChecked d.ieeeAddr with
     | some t => !(decide (now - t > cfg.updateCheckInterval * 1000 * 60))
     | none => false)

/-- Claim C3 as amended: for every "requesting next image" signal the
trigger handles (right message type, device has a definition, device not in
the in-progress set), the handler sends the `queryNextImageResponse`
negative acknowledgment back to the device — including when the device has
no OTA capability, when automatic checking is disabled, and when the
availability query fails — **except** when the rate limit causes the
availability query to be skipped, in which case the handler returns without
sending the acknowledgment. -/
theorem ota_ack_sent_unless_rate_limited (cfg : Config) (st : OTAState)
    (data : DeviceMessage) (now : Int)
    (o : Except ErrInfo OtaUpdateAvailableResult)
    (hq : data.isQueryNextImageRequest = true)
    (hdef : data.device.hasDefinition = true)
    (hip : st.inProgress data.device.ieeeAddr = false)
    (hskip : autoCheckRateLimited cfg st data.device now = false) :
    Effect.deviceAck data.device.ieeeAddr 0x98
      ∈ (onZigbeeEvent cfg st data now o).2 := by
  unfold onZigbeeEvent
  simp only [hq, hdef, hip, Bool.not_true, Bool.or_false, Bool.false_or,
    Bool.false_eq_true, if_false]
  by_cases h1 : (data.device.hasOta && !cfg.disableAutomaticUpdateCheck) = true
  · rw [if_pos h1]
    unfold autoCheckRateLimited at hskip
    cases hlc : st.lastChecked data.device.ieeeAddr with
    | none =>
        simp only [hlc]
        rcases o with e | r <;> simp [noImageAck]
    | some t =>
        rw [hlc] at hskip
        have hchk : decide (now - t > cfg.updateCheckInterval * 1000 * 60) = true := by
          rcases Bool.eq_false_or_eq_true
            (decide (now - t > cfg.updateCheckInterval * 1000 * 60)) with h | h
          · exact h
          · rw [h1] at hskip
            simp [h] at hskip
        simp only [hlc, hchk, Bool.not_true, Bool.false_eq_true, if_false]
        rcases o with e | r <;> simp [noImageAck]
  · rw [if_neg h1]
    simp [noImageAck]

/-- Witness for C3 (amended): a signal from a device without OTA
capability still gets the negative acknowledgment. -/
theorem ota_ack_sent_unless_rate_limited_witness :
    Effect.deviceAck "0x1" 0x98
      ∈ (onZigbeeEvent cfg1 st0 ⟨true, devNoOta⟩ 0 (.ok ⟨true, 5, 7⟩)).2 :=
  ota_ack_sent_unless_rate_limited cfg1 st0 ⟨true, devNoOta⟩ 0
    (.ok ⟨true, 5, 7⟩) rfl rfl rfl (by decide)

/-! ## Claim C7 -/

/-- Recognizes the availability-query effect for device `i`. -/
def isOtaQuery (i : String) : Effect → Bool
  | .otaQuery j => j == i
  | _ => false

/-- Claim C7: on a handled signal eligible for an automatic check
(OTA-capable, automatic checking enabled), the availability query is issued
exactly once if the device was never checked or the elapsed time exceeds
the configured interval — and the last-checked entry is then set to the
current time; otherwise the handler skips: nothing is queried or published
(its whole output is one debug log line) and the state is unchanged.
Consequently (second part), with the default 1440-minute interval, two
signals 5 minutes apart produce exactly one availability query. -/
theorem ota_auto_check_rate_limit :
    (∀ (cfg : Config) (st : OTAState) (data : DeviceMessage) (now : Int)
        (o : Except ErrInfo OtaUpdateAvailableResult),
      data.isQueryNextImageRequest = true →
      data.device.hasDefinition = true →
      st.inProgress data.device.ieeeAddr = false →
      data.device.hasOta = true →
      cfg.disableAutomaticUpdateCheck = false →
      (match st.lastChecked data.device.ieeeAddr with
       | none =>
          List.countP (isOtaQuery data.device.ieeeAddr)
              (onZigbeeEvent cfg st data now o).2 = 1
            ∧ (onZigbeeEvent cfg st data now o).1.lastChecked
                data.device.ieeeAddr = some now
       | some t =>
          if now - t > cfg.updateCheckInterval * 1000 * 60 then
            List.countP (isOtaQuery data.device.ieeeAddr)
                (onZigbeeEvent cfg st data now o).2 = 1
              ∧ (onZigbeeEvent cfg st data now o).1.lastChecked
                  data.device.ieeeAddr = some now
          else
            (onZigbeeEvent cfg st data now o).2
                = [Effect.logDebug ("Device '" ++ data.device.name ++
                    "' requested OTA")]
              ∧ (onZigbeeEvent cfg st data now o).1 = st))
    ∧ (List.countP (isOtaQuery "0x1")
        ((onZigbeeEvent cfg1 st0 ⟨true, dev1⟩ 0 (.ok ⟨true, 5, 7⟩)).2 ++
         (onZigbeeEvent cfg1
            (onZigbeeEvent cfg1 st0 ⟨true, dev1⟩ 0 (.ok ⟨true, 5, 7⟩)).1
            ⟨true, dev1⟩ 300000 (.ok ⟨true, 5, 7⟩)).2) = 1) := by
  constructor
  · intro cfg st data now o hq hdef hip hota hdis
    unfold onZigbeeEvent
    simp only [hq, hdef, hip, hota, hdis, Bool.not_true, Bool.not_false,
      Bool.or_false, Bool.false_or, Bool.false_eq_true, if_false,
      Bool.and_self, if_true]
    cases hlc : st.lastChecked data.device.ieeeAddr with
    | none =>
        simp only [hlc]
        constructor
        · rcases o with e | r
          · simp [isOtaQuery, List.countP_append, List.countP_cons,
              noImageAck]
          · simp [isOtaQuery, List.countP_append, List.countP_cons,
              noImageAck]
            intro a _ h
            rcases h with h | ⟨_, h⟩ <;> subst h <;> rfl
        · rcases o with e | r <;>
            simp [mergePublish, updMap]
    | some t =>
        simp only [hlc]
        by_cases h2 : now - t > cfg.updateCheckInterval * 1000 * 60
        · rw [if_pos h2]
          have hd : decide (now - t > cfg.updateCheckInterval * 1000 * 60)
              = true := decide_eq_true h2
          simp only [hd, Bool.not_true, Bool.false_eq_true, if_false]
          constructor
          · rcases o with e | r
            · simp [isOtaQuery, List.countP_append, List.countP_cons,
                noImageAck]
            · simp [isOtaQuery, List.countP_append, List.countP_cons,
                noImageAck]
              intro a _ h
              rcases h with h | ⟨_, h⟩ <;> subst h <;> rfl
          · rcases o with e | r <;>
              simp [mergePublish, updMap]
        · rw [if_neg h2]
          have hd : decide (now - t > cfg.updateCheckInterval * 1000 * 60)
              = false := decide_eq_false h2
          simp only [hd, Bool.not_false, if_true]
          exact ⟨trivial, trivial⟩
  · decide

/-- Witness for C7 at a concrete never-checked device: one query is issued
and the last-checked entry is set. -/
theorem ota_auto_check_rate_limit_witness :
    List.countP (isOtaQuery "0x1")
        (onZigbeeEvent cfg1 st0 ⟨true, dev1⟩ 0 (.ok ⟨true, 5, 7⟩)).2 = 1
      ∧ (onZigbeeEvent cfg1 st0 ⟨true, dev1⟩ 0
          (.ok ⟨true, 5, 7⟩)).1.lastChecked "0x1" = some 0 :=
  ota_auto_check_rate_limit.1 cfg1 st0 ⟨true, dev1⟩ 0 (.ok ⟨true, 5, 7⟩)
    rfl rfl rfl rfl rfl

/-! ## Claim C10 -/

/-- Recognizes the provider `updateToLatest` invocation for device `i`. -/
def isOtaUpdateCall (i : String) : Effect → Bool
  | .otaUpdateCall j => j == i
  | _ => false

lemma checkFlow_counts (cfg : Config) (st : OTAState) (d : DeviceInfo)
    (o : Except ErrInfo OtaUpdateAvailableResult) (now : Int) :
    List.countP (isOtaQuery d.ieeeAddr) (checkFlow cfg st d o now).effects = 1
    ∧ List.countP (isOtaUpdateCall d.ieeeAddr)
        (checkFlow cfg st d o now).effects = 0 := by
  rcases o with e | r <;> cases hl : cfg.legacyApi <;>
    simp [checkFlow, hl, isOtaQuery, isOtaUpdateCall, List.countP_append,
      List.countP_cons]

lemma updateFlow_counts (cfg : Config) (st : OTAState) (d : DeviceInfo)
    (raw : String) (calls : List (Rat × Rat)) (fromR : Option BuildInfo)
    (result : Except ErrInfo Int) (toR : Option BuildInfo) :
    List.countP (isOtaUpdateCall d.ieeeAddr)
        (updateFlow cfg st d raw calls fromR result toR).effects = 1
    ∧ List.countP (isOtaQuery d.ieeeAddr)
        (updateFlow cfg st d raw calls fromR result toR).effects = 0 := by
  have hq1 : List.countP (isOtaQuery d.ieeeAddr)
      (progressFold cfg d st calls).2 = 0 :=
    progressFold_countP_zero cfg d calls st _ (fun _ _ => rfl) (fun _ => rfl)
      (fun _ _ _ => rfl)
  have hu1 : List.countP (isOtaUpdateCall d.ieeeAddr)
      (progressFold cfg d st calls).2 = 0 :=
    progressFold_countP_zero cfg d calls st _ (fun _ _ => rfl) (fun _ => rfl)
      (fun _ _ _ => rfl)
  rcases result with e | v <;> cases hl : cfg.legacyApi <;>
    simp [updateFlow, hl, isOtaQuery, isOtaUpdateCall, List.countP_append,
      List.countP_cons, hq1, hu1]

lemma countP_if_single_query (i : String) (b : Bool) (t : String)
    (r : BridgeResponse) :
    List.countP (isOtaQuery i)
      (if b = true then [] else [Effect.bridgeResponse t r]) = 0 := by
  cases b <;> simp [isOtaQuery]

lemma countP_if_single_call (i : String) (b : Bool) (t : String)
    (r : BridgeResponse) :
    List.countP (isOtaUpdateCall i)
      (if b = true then [] else [Effect.bridgeResponse t r]) = 0 := by
  cases b <;> simp [isOtaUpdateCall]

lemma countP_errTail_query (i : String) (err stk : Option String) :
    List.countP (isOtaQuery i)
      (match err with
       | some e =>
          [Effect.logError e] ++
            (match stk with
             | some s => [Effect.logDebug s]
             | none => [])
       | none => []) = 0 := by
  cases err <;> cases stk <;>
    simp [isOtaQuery, List.countP_append, List.countP_cons]

lemma countP_errTail_call (i : String) (err stk : Option String) :
    List.countP (isOtaUpdateCall i)
      (match err with
       | some e =>
          [Effect.logError e] ++
            (match stk with
             | some s => [Effect.logDebug s]
             | none => [])
       | none => []) = 0 := by
  cases err <;> cases stk <;>
    simp [isOtaUpdateCall, List.countP_append, List.countP_cons]

/-- Claim C10: for every accepted, dispatched request, the action is
decided solely by whether the final topic segment equals the exact string
`check`: that segment dispatches the check flow (exactly one provider
availability query, no update call), any other accepted suffix dispatches
the update flow (exactly one provider update call, no availability query).
And because the current-protocol pattern is not anchored at the end, the
topic `zigbee2mqtt/bridge/request/device/ota_update/checking` is accepted,
its final segment `checking ≠ check`, and a concrete run on it performs the
provider update call. -/
theorem ota_dispatch_by_last_segment :
    (∀ (cfg : Config) (st : OTAState) (data : MQTTMessage) (env : MQTTEnv)
        (d : DeviceInfo),
      topicAccepted cfg data.topic = true →
      env.resolveEntity data.id = some d →
      d.hasDefinition = true → d.hasOta = true →
      st.inProgress d.ieeeAddr = false →
      (if lastSegment data.topic = "check" then
        List.countP (isOtaQuery d.ieeeAddr)
            (onMQTTMessage cfg st data env).2 = 1
          ∧ List.countP (isOtaUpdateCall d.ieeeAddr)
              (onMQTTMessage cfg st data env).2 = 0
      else
        List.countP (isOtaUpdateCall d.ieeeAddr)
            (onMQTTMessage cfg st data env).2 = 1
          ∧ List.countP (isOtaQuery d.ieeeAddr)
              (onMQTTMessage cfg st data env).2 = 0))
    ∧ matchesCurrentTopic "zigbee2mqtt"
        "zigbee2mqtt/bridge/request/device/ota_update/checking" = true
    ∧ lastSegment "zigbee2mqtt/bridge/request/device/ota_update/checking"
        = "checking"
    ∧ List.countP (isOtaUpdateCall "0x1")
        (onMQTTMessage cfg2 st1
          ⟨"zigbee2mqtt/bridge/request/device/ota_update/checking", "A", "raw"⟩
          { resolveEntity := resolve1, checkOutcome := .ok ⟨true, 5, 7⟩
            progressCalls := [], fromRead := none, updateResult := .ok 9
            toRead := none, now := 100 }).2 = 1 := by
  refine ⟨?_, by decide, by decide, by decide⟩
  intro cfg st data env d hacc hres hdef hota hip
  rw [onMQTTMessage_dispatch cfg st data env d hacc hres hdef hota hip]
  dsimp only
  by_cases htyp : lastSegment data.topic = "check"
  · rw [if_pos htyp, if_pos htyp]
    obtain ⟨h1, h2⟩ := checkFlow_counts cfg
      { st with inProgress := updMap st.inProgress d.ieeeAddr true } d
      env.checkOutcome env.now
    constructor
    · rw [List.countP_append, List.countP_append, h1,
        countP_if_single_query, countP_errTail_query]
    · rw [List.countP_append, List.countP_append, h2,
        countP_if_single_call, countP_errTail_call]
  · rw [if_neg htyp, if_neg htyp]
    obtain ⟨h1, h2⟩ := updateFlow_counts cfg
      { st with inProgress := updMap st.inProgress d.ieeeAddr true } d
      data.raw env.progressCalls env.fromRead env.updateResult env.toRead
    constructor
    · rw [List.countP_append, List.countP_append, h1,
        countP_if_single_call, countP_errTail_call]
    · rw [List.countP_append, List.countP_append, h2,
        countP_if_single_query, countP_errTail_query]

/-- Witness for C10: a concrete check request dispatches as a check (one
availability query, no update call). -/
theorem ota_dispatch_by_last_segment_witness :
    (if lastSegment topicCheck = "check" then
      List.countP (isOtaQuery dev1.ieeeAddr)
          (onMQTTMessage cfg2 st1 ⟨topicCheck, "A", "raw"⟩
            { resolveEntity := resolve1, checkOutcome := .ok ⟨true, 5, 7⟩
              progressCalls := [], fromRead := none, updateResult := .ok 9
              toRead := none, now := 100 }).2 = 1
        ∧ List.countP (isOtaUpdateCall dev1.ieeeAddr)
            (onMQTTMessage cfg2 st1 ⟨topicCheck, "A", "raw"⟩
              { resolveEntity := resolve1, checkOutcome := .ok ⟨true, 5, 7⟩
                progressCalls := [], fromRead := none, updateResult := .ok 9
                toRead := none, now := 100 }).2 = 0
    else
      List.countP (isOtaUpdateCall dev1.ieeeAddr)
          (onMQTTMessage cfg2 st1 ⟨topicCheck, "A", "raw"⟩
            { resolveEntity := resolve1, checkOutcome := .ok ⟨true, 5, 7⟩
              progressCalls := [], fromRead := none, updateResult := .ok 9
              toRead := none, now := 100 }).2 = 1
        ∧ List.countP (isOtaQuery dev1.ieeeAddr)
            (onMQTTMessage cfg2 st1 ⟨topicCheck, "A", "raw"⟩
              { resolveEntity := resolve1, checkOutcome := .ok ⟨true, 5, 7⟩
                progressCalls := [], fromRead := none, updateResult := .ok 9
                toRead := none, now := 100 }).2 = 0) :=
  ota_dispatch_by_last_segment.1 cfg2 st1 ⟨topicCheck, "A", "raw"⟩
    { resolveEntity := resolve1, checkOutcome := .ok ⟨true, 5, 7⟩
      progressCalls := [], fromRead := none, updateResult := .ok 9
      toRead := none, now := 100 } dev1
    (by decide) (by decide) rfl rfl (by decide)

/-! ## Claim C9 -/

/-- `sub` occurs as a contiguous segment of `l`. -/
def listContainsSeg : List Char → List Char → Bool
  | [], sub => sub.isEmpty
  | c :: t, sub => sub.isPrefixOf (c :: t) || listContainsSeg t sub

/-- `sub` occurs as a substring of `s`. -/
def strContainsStr (s sub : String) : Bool := listContainsSeg s.data sub.data

/-- Environment for a check request whose availability query fails with
message `boom` and stack `STACKLINE`. -/
def envCheckFail : MQTTEnv :=
  ⟨resolve1, .error ⟨"boom", "STACKLINE"⟩, [], none, .ok 9, none, 100⟩

/-- Counterexample to C9 as stated: on a failing explicit check, the
requester's response carries only the human-readable message — the
underlying cause's stack is not part of the response (the response error
string does not even contain it); the stack reaches only the debug log.
The run below produces exactly these five effects: the check log line, the
provider query, the error response, the error log and the debug-logged
stack. -/
theorem ota_check_failure_cex :
    (onMQTTMessage cfg2 st1 ⟨topicCheck, "A", "raw"⟩ envCheckFail).2 =
      [Effect.logInfo "Checking if update available for 'Dev'",
       Effect.otaQuery "0x1",
       Effect.bridgeResponse "bridge/response/device/ota_update/check"
         { data := ⟨"A", none, none, none⟩
           status := "error"
           error := some "Failed to check if update available for 'Dev' (boom)" },
       Effect.logError "Failed to check if update available for 'Dev' (boom)",
       Effect.logDebug "STACKLINE"]
    ∧ strContainsStr "Failed to check if update available for 'Dev' (boom)"
        "STACKLINE" = false := by
  decide

/-- Claim C9 as amended: for every explicit check request whose
availability query fails, no device state is published, the last-checked
map and the whole state store are left exactly as they were, and the
requester receives an error response containing the human-readable message
(which embeds the cause's message); the underlying cause's stack is written
to the debug log, not to the response. -/
theorem ota_check_failure_outcome (cfg : Config) (st : OTAState)
    (data : MQTTMessage) (env : MQTTEnv) (d : DeviceInfo) (e : ErrInfo)
    (hacc : topicAccepted cfg data.topic = true)
    (hres : env.resolveEntity data.id = some d)
    (hdef : d.hasDefinition = true) (hota : d.hasOta = true)
    (hip : st.inProgress d.ieeeAddr = false)
    (htyp : lastSegment data.topic = "check")
    (hout : env.checkOutcome = .error e) :
    (∀ x, (onMQTTMessage cfg st data env).1.stateStore x = st.stateStore x)
    ∧ (∀ x, (onMQTTMessage cfg st data env).1.lastChecked x
        = st.lastChecked x)
    ∧ (∀ i p, Effect.publishState i p ∉ (onMQTTMessage cfg st data env).2)
    ∧ (matchesLegacyTopic cfg.baseTopic data.topic = false →
        Effect.bridgeResponse
          ("bridge/response/device/ota_update/" ++ lastSegment data.topic)
          { data := ⟨data.id, none, none, none⟩
            status := "error"
            error := some ("Failed to check if update available for '"
              ++ d.name ++ "' (" ++ e.message ++ ")") }
          ∈ (onMQTTMessage cfg st data env).2)
    ∧ Effect.logDebug e.stack ∈ (onMQTTMessage cfg st data env).2 := by
  rw [onMQTTMessage_dispatch cfg st data env d hacc hres hdef hota hip]
  dsimp only
  rw [if_pos htyp, hout]
  refine ⟨?_, ?_, ?_, ?_, ?_⟩
  · intro x; simp [checkFlow]
  · intro x; simp [checkFlow]
  · intro i p
    cases hl : cfg.legacyApi <;>
      cases hlt : matchesLegacyTopic cfg.baseTopic data.topic <;>
      simp [checkFlow, hl, hlt]
  · intro hlt
    cases hl : cfg.legacyApi <;> simp [checkFlow, hl, hlt]
  · cases hl : cfg.legacyApi <;>
      cases hlt : matchesLegacyTopic cfg.baseTopic data.topic <;>
      simp [checkFlow, hl, hlt]

/-- Witness for C9 (amended): the stack of the concrete failure reaches the
debug log. -/
theorem ota_check_failure_outcome_witness :
    Effect.logDebug "STACKLINE"
      ∈ (onMQTTMessage cfg2 st1 ⟨topicCheck, "A", "raw"⟩ envCheckFail).2 :=
  (ota_check_failure_outcome cfg2 st1 ⟨topicCheck, "A", "raw"⟩ envCheckFail
    dev1 ⟨"boom", "STACKLINE"⟩ (by decide) (by decide) rfl rfl (by decide)
    (by decide) rfl).2.2.2.2

/-! ## Claim C5 -/

/-- Recognizes any reconfigure emission. -/
def isEmitReconfigureAny : Effect → Bool
  | .emitReconfigure _ => true
  | _ => false

/-- Recognizes the reconfigure emission for device `i`. -/
def isEmitReconfigureFor (i : String) : Effect → Bool
  | .emitReconfigure j => j == i
  | _ => false

/-- Recognizes the devices-changed emission. -/
def isEmitDevicesChanged : Effect → Bool
  | .emitDevicesChanged => true
  | _ => false

lemma clear_bind_iv (o : Option DeviceUpdate) :
    ((o.map (fun r => { r with progress := none, remaining := none })).bind
      (·.installed_version)) = o.bind (·.installed_version) := by
  cases o <;> rfl

lemma clear_bind_lv (o : Option DeviceUpdate) :
    ((o.map (fun r => { r with progress := none, remaining := none })).bind
      (·.latest_version)) = o.bind (·.latest_version) := by
  cases o <;> rfl

lemma clear_bind_progress (o : Option DeviceUpdate) :
    ((o.map (fun r => { r with progress := none, remaining := none })).bind
      (·.progress)) = none := by
  cases o <;> rfl

lemma clear_bind_remaining (o : Option DeviceUpdate) :
    ((o.map (fun r => { r with progress := none, remaining := none })).bind
      (·.remaining)) = none := by
  cases o <;> rfl

/-- The error branch of the update flow adds nothing to the response data. -/
lemma updateFlow_error_respData (cfg : Config) (st : OTAState)
    (d : DeviceInfo) (raw : String) (calls : List (Rat × Rat))
    (fromR : Option BuildInfo) (e : ErrInfo) (toR : Option BuildInfo) :
    (updateFlow cfg st d raw calls fromR (.error e) toR).updateAvailable
        = none
    ∧ (updateFlow cfg st d raw calls fromR (.error e) toR).fromBuild = none
    ∧ (updateFlow cfg st d raw calls fromR (.error e) toR).toBuild = none :=
  ⟨rfl, rfl, rfl⟩

/-- Outcome of the update flow when `updateToLatest` fails: `progress` and
`remaining` are cleared, the record goes back to `available` with the
pre-request versions, the `available` payload is published, the failure
message and stack are reported, and no lifecycle event is emitted. -/
lemma updateFlow_error_outcome (cfg : Config) (st : OTAState)
    (d : DeviceInfo) (raw : String) (calls : List (Rat × Rat))
    (fromR : Option BuildInfo) (e : ErrInfo) (toR : Option BuildInfo) :
    (updateFlow cfg st d raw calls fromR (.error e) toR).state.stateStore
        d.ieeeAddr
      = some
        { state := .available
          installed_version :=
            (st.stateStore d.ieeeAddr).bind (·.installed_version)
          latest_version := (st.stateStore d.ieeeAddr).bind (·.latest_version)
          progress := none, remaining := none }
    ∧ Effect.publishState d.ieeeAddr
        { update :=
            { state := .available
              installed_version :=
                (st.stateStore d.ieeeAddr).bind (·.installed_version)
              latest_version :=
                (st.stateStore d.ieeeAddr).bind (·.latest_version)
              progress := none, remaining := none }
          update_available := if cfg.legacyApi then some true else none }
        ∈ (updateFlow cfg st d raw calls fromR (.error e) toR).effects
    ∧ (updateFlow cfg st d raw calls fromR (.error e) toR).error
        = some ("Update of '" ++ d.name ++ "' failed (" ++ e.message ++ ")")
    ∧ (updateFlow cfg st d raw calls fromR (.error e) toR).errorStack
        = some e.stack
    ∧ List.countP isEmitReconfigureAny
        (updateFlow cfg st d raw calls fromR (.error e) toR).effects = 0
    ∧ List.countP isEmitDevicesChanged
        (updateFlow cfg st d raw calls fromR (.error e) toR).effects = 0 := by
  have hiv := (progressFold_versions cfg d calls st).1
  have hlv := (progressFold_versions cfg d calls st).2
  have hrq : List.countP isEmitReconfigureAny
      (progressFold cfg d st calls).2 = 0 :=
    progressFold_countP_zero cfg d calls st _ (fun _ _ => rfl) (fun _ => rfl)
      (fun _ _ _ => rfl)
  have hdq : List.countP isEmitDevicesChanged
      (progressFold cfg d st calls).2 = 0 :=
    progressFold_countP_zero cfg d calls st _ (fun _ _ => rfl) (fun _ => rfl)
      (fun _ _ _ => rfl)
  refine ⟨?_, ?_, rfl, rfl, ?_, ?_⟩
  · simp [updateFlow, mergePublish, removeProgressAndRemainingFromState,
      updMap_self, mergeUpdate, getEntityPublishPayload, clear_bind_iv,
      clear_bind_lv, clear_bind_progress, clear_bind_remaining, hiv, hlv]
  · cases hl : cfg.legacyApi <;>
      simp [updateFlow, mergePublish, removeProgressAndRemainingFromState,
        updMap_self, mergeUpdate, getEntityPublishPayload, clear_bind_iv,
        clear_bind_lv, clear_bind_progress, clear_bind_remaining, hiv, hlv,
        hl]
  · cases hl : cfg.legacyApi <;>
      simp [updateFlow, List.countP_append, List.countP_cons, hrq, hl,
        isEmitReconfigureAny]
  · cases hl : cfg.legacyApi <;>
      simp [updateFlow, List.countP_append, List.countP_cons, hdq, hl,
        isEmitDevicesChanged]

/-- Environment for an update request whose `updateToLatest` fails with
message `boom` and stack `STACKLINE` (no progress callbacks fired). -/
def envUpdFail : MQTTEnv :=
  ⟨resolve1, .ok ⟨true, 5, 7⟩, [], none,
   .error ⟨"boom", "STACKLINE"⟩, none, 100⟩

/-- Counterexample to C5 as stated: on a failing update the requester's
response carries only the human-readable message; the underlying cause's
stack is not part of the response (the response error string does not
contain it) — it reaches only the debug log.  The run below produces
exactly these seven effects. -/
theorem ota_update_failure_cex :
    (onMQTTMessage cfg2 st1 ⟨topicUpdate, "A", "raw"⟩ envUpdFail).2 =
      [Effect.logInfo "Updating 'Dev' to latest firmware",
       Effect.otaUpdateCall "0x1",
       Effect.logDebug "Update of 'Dev' failed (boom)",
       Effect.publishState "0x1"
         { update :=
             { state := .available, installed_version := some 5
               latest_version := some 7, progress := none, remaining := none }
           update_available := none },
       Effect.bridgeResponse "bridge/response/device/ota_update/update"
         { data := ⟨"A", none, none, none⟩
           status := "error"
           error := some "Update of 'Dev' failed (boom)" },
       Effect.logError "Update of 'Dev' failed (boom)",
       Effect.logDebug "STACKLINE"]
    ∧ strContainsStr "Update of 'Dev' failed (boom)" "STACKLINE" = false := by
  decide

/-- Claim C5 as amended: for every update request whose provider call
fails, `progress` and `remaining` are cleared from the device's record, the
`available` state is published with the device's prior
`installed_version` / `latest_version` unchanged, the requester receives an
error response carrying the human-readable failure message (the cause's
stack goes to the debug log, not to the response), and no reconfigure or
devices-changed lifecycle event is emitted. -/
theorem ota_update_failure_outcome (cfg : Config) (st : OTAState)
    (data : MQTTMessage) (env : MQTTEnv) (d : DeviceInfo) (e : ErrInfo)
    (hacc : topicAccepted cfg data.topic = true)
    (hres : env.resolveEntity data.id = some d)
    (hdef : d.hasDefinition = true) (hota : d.hasOta = true)
    (hip : st.inProgress d.ieeeAddr = false)
    (htyp : ¬ lastSegment data.topic = "check")
    (hout : env.updateResult = .error e) :
    (onMQTTMessage cfg st data env).1.stateStore d.ieeeAddr
      = some
        { state := .available
          installed_version :=
            (st.stateStore d.ieeeAddr).bind (·.installed_version)
          latest_version := (st.stateStore d.ieeeAddr).bind (·.latest_version)
          progress := none, remaining := none }
    ∧ Effect.publishState d.ieeeAddr
        { update :=
            { state := .available
              installed_version :=
                (st.stateStore d.ieeeAddr).bind (·.installed_version)
              latest_version :=
                (st.stateStore d.ieeeAddr).bind (·.latest_version)
              progress := none, remaining := none }
          update_available := if cfg.legacyApi then some true else none }
        ∈ (onMQTTMessage cfg st data env).2
    ∧ (matchesLegacyTopic cfg.baseTopic data.topic = false →
        Effect.bridgeResponse
          ("bridge/response/device/ota_update/" ++ lastSegment data.topic)
          { data := ⟨data.id, none, none, none⟩
            status := "error"
            error := some ("Update of '" ++ d.name ++ "' failed ("
              ++ e.message ++ ")") }
          ∈ (onMQTTMessage cfg st data env).2)
    ∧ Effect.logDebug e.stack ∈ (onMQTTMessage cfg st data env).2
    ∧ List.countP isEmitReconfigureAny (onMQTTMessage cfg st data env).2 = 0
    ∧ List.countP isEmitDevicesChanged (onMQTTMessage cfg st data env).2
        = 0 := by
  rw [onMQTTMessage_dispatch cfg st data env d hacc hres hdef hota hip]
  dsimp only
  rw [if_neg htyp, hout]
  obtain ⟨h1, h2, h3, h4, h5, h6⟩ := updateFlow_error_outcome cfg
    { st with inProgress := updMap st.inProgress d.ieeeAddr true } d
    data.raw env.progressCalls env.fromRead e env.toRead
  obtain ⟨hua, hfb, htb⟩ := updateFlow_error_respData cfg
    { st with inProgress := updMap st.inProgress d.ieeeAddr true } d
    data.raw env.progressCalls env.fromRead e env.toRead
  refine ⟨h1, ?_, ?_, ?_, ?_, ?_⟩
  · exact List.mem_append_left _ (List.mem_append_left _ h2)
  · intro hlt
    simp [hlt, h3, hua, hfb, htb, List.mem_append]
  · simp [h3, h4, List.mem_append]
  · rw [List.countP_append, List.countP_append, h5]
    cases hlt : matchesLegacyTopic cfg.baseTopic data.topic <;>
      simp [hlt, h3, h4, isEmitReconfigureAny, List.countP_cons,
        List.countP_append]
  · rw [List.countP_append, List.countP_append, h6]
    cases hlt : matchesLegacyTopic cfg.baseTopic data.topic <;>
      simp [hlt, h3, h4, isEmitDevicesChanged, List.countP_cons,
        List.countP_append]

/-- Witness for C5 (amended): after the concrete failing update, device
`0x1` is back to `available` with its prior versions and no
progress/remaining. -/
theorem ota_update_failure_outcome_witness :
    (onMQTTMessage cfg2 st1 ⟨topicUpdate, "A", "raw"⟩
        envUpdFail).1.stateStore "0x1"
      = some
        { state := .available
          installed_version := (st1.stateStore "0x1").bind (·.installed_version)
          latest_version := (st1.stateStore "0x1").bind (·.latest_version)
          progress := none, remaining := none } :=
  (ota_update_failure_outcome cfg2 st1 ⟨topicUpdate, "A", "raw"⟩ envUpdFail
    dev1 ⟨"boom", "STACKLINE"⟩ (by decide) (by decide) rfl rfl (by decide)
    (by decide) rfl).1

/-! ## Claim C4 -/

/-- Outcome of the update flow when `updateToLatest` succeeds with
firmware version `v`: `progress` / `remaining` are cleared, the record and
published payload become `idle` with `installed_version = latest_version =
v`, exactly one reconfigure event for the device and one devices-changed
event are emitted, no error is reported, and the response carries the
pre/post identity reads as-is. -/
lemma updateFlow_ok_outcome (cfg : Config) (st : OTAState) (d : DeviceInfo)
    (raw : String) (calls : List (Rat × Rat)) (fromR : Option BuildInfo)
    (v : Int) (toR : Option BuildInfo) :
    (updateFlow cfg st d raw calls fromR (.ok v) toR).state.stateStore
        d.ieeeAddr
      = some
        { state := .idle, installed_version := some v
          latest_version := some v, progress := none, remaining := none }
    ∧ Effect.publishState d.ieeeAddr
        { update :=
            { state := .idle, installed_version := some v
              latest_version := some v, progress := none, remaining := none }
          update_available := if cfg.legacyApi then some false else none }
        ∈ (updateFlow cfg st d raw calls fromR (.ok v) toR).effects
    ∧ (updateFlow cfg st d raw calls fromR (.ok v) toR).error = none
    ∧ (updateFlow cfg st d raw calls fromR (.ok v) toR).errorStack = none
    ∧ (updateFlow cfg st d raw calls fromR (.ok v) toR).updateAvailable
        = none
    ∧ (updateFlow cfg st d raw calls fromR (.ok v) toR).fromBuild = fromR
    ∧ (updateFlow cfg st d raw calls fromR (.ok v) toR).toBuild = toR
    ∧ List.countP (isEmitReconfigureFor d.ieeeAddr)
        (updateFlow cfg st d raw calls fromR (.ok v) toR).effects = 1
    ∧ List.countP isEmitDevicesChanged
        (updateFlow cfg st d raw calls fromR (.ok v) toR).effects = 1 := by
  have hrq : List.countP (isEmitReconfigureFor d.ieeeAddr)
      (progressFold cfg d st calls).2 = 0 :=
    progressFold_countP_zero cfg d calls st _ (fun _ _ => rfl) (fun _ => rfl)
      (fun _ _ _ => rfl)
  have hdq : List.countP isEmitDevicesChanged
      (progressFold cfg d st calls).2 = 0 :=
    progressFold_countP_zero cfg d calls st _ (fun _ _ => rfl) (fun _ => rfl)
      (fun _ _ _ => rfl)
  refine ⟨?_, ?_, rfl, rfl, rfl, rfl, rfl, ?_, ?_⟩
  · simp [updateFlow, mergePublish, removeProgressAndRemainingFromState,
      updMap_self, mergeUpdate, getEntityPublishPayload, clear_bind_progress,
      clear_bind_remaining]
  · cases hl : cfg.legacyApi <;>
      simp [updateFlow, mergePublish, removeProgressAndRemainingFromState,
        updMap_self, mergeUpdate, getEntityPublishPayload,
        clear_bind_progress, clear_bind_remaining, hl]
  · cases hl : cfg.legacyApi <;>
      simp [updateFlow, List.countP_append, List.countP_cons, hrq, hl,
        isEmitReconfigureFor]
  · cases hl : cfg.legacyApi <;>
      simp [updateFlow, List.countP_append, List.countP_cons, hdq, hl,
        isEmitDevicesChanged]

/-- Environment for a successful update to version `9`, with one progress
callback and both identity reads succeeding. -/
def envUpdOk : MQTTEnv :=
  ⟨resolve1, .ok ⟨true, 5, 7⟩, [(50, 90)], some ⟨"b1", "d1"⟩,
   .ok 9, some ⟨"b2", "d2"⟩, 100⟩

/-- Claim C4: for every update request whose provider call succeeds with
new firmware version `v`, the handler clears `progress`/`remaining` from
the device's record, publishes the `idle` state with
`installed_version = latest_version = v`, emits exactly one reconfigure
event for the device and exactly one devices-changed event, and — whenever
a structured response is published at all, i.e. the request did not arrive
on the legacy topic — reports the before/after identity pair, each `none`
exactly when its read failed, in the `ok` response. -/
theorem ota_update_success_outcome (cfg : Config) (st : OTAState)
    (data : MQTTMessage) (env : MQTTEnv) (d : DeviceInfo) (v : Int)
    (hacc : topicAccepted cfg data.topic = true)
    (hres : env.resolveEntity data.id = some d)
    (hdef : d.hasDefinition = true) (hota : d.hasOta = true)
    (hip : st.inProgress d.ieeeAddr = false)
    (htyp : ¬ lastSegment data.topic = "check")
    (hout : env.updateResult = .ok v) :
    (onMQTTMessage cfg st data env).1.stateStore d.ieeeAddr
      = some
        { state := .idle, installed_version := some v
          latest_version := some v, progress := none, remaining := none }
    ∧ Effect.publishState d.ieeeAddr
        { update :=
            { state := .idle, installed_version := some v
              latest_version := some v, progress := none, remaining := none }
          update_available := if cfg.legacyApi then some false else none }
        ∈ (onMQTTMessage cfg st data env).2
    ∧ List.countP (isEmitReconfigureFor d.ieeeAddr)
        (onMQTTMessage cfg st data env).2 = 1
    ∧ List.countP isEmitDevicesChanged (onMQTTMessage cfg st data env).2 = 1
    ∧ (matchesLegacyTopic cfg.baseTopic data.topic = false →
        Effect.bridgeResponse
          ("bridge/response/device/ota_update/" ++ lastSegment data.topic)
          { data := ⟨data.id, none, env.fromRead, env.toRead⟩
            status := "ok", error := none }
          ∈ (onMQTTMessage cfg st data env).2) := by
  rw [onMQTTMessage_dispatch cfg st data env d hacc hres hdef hota hip]
  dsimp only
  rw [if_neg htyp, hout]
  obtain ⟨h1, h2, h3, h4, h5, h6, h7, h8, h9⟩ := updateFlow_ok_outcome cfg
    { st with inProgress := updMap st.inProgress d.ieeeAddr true } d
    data.raw env.progressCalls env.fromRead v env.toRead
  refine ⟨h1, ?_, ?_, ?_, ?_⟩
  · exact List.mem_append_left _ (List.mem_append_left _ h2)
  · rw [List.countP_append, List.countP_append, h8]
    cases hlt : matchesLegacyTopic cfg.baseTopic data.topic <;>
      simp [hlt, h3, isEmitReconfigureFor, List.countP_cons]
  · rw [List.countP_append, List.countP_append, h9]
    cases hlt : matchesLegacyTopic cfg.baseTopic data.topic <;>
      simp [hlt, h3, isEmitDevicesChanged, List.countP_cons]
  · intro hlt
    simp [hlt, h3, h5, h6, h7, List.mem_append]

/-- Witness for C4: after the concrete successful update to version `9`,
device `0x1`'s record is `idle` with both versions `9` and no
progress/remaining. -/
theorem ota_update_success_outcome_witness :
    (onMQTTMessage cfg2 st1 ⟨topicUpdate, "A", "raw"⟩
        envUpdOk).1.stateStore "0x1"
      = some
        { state := .idle, installed_version := some 9
          latest_version := some 9, progress := none, remaining := none } :=
  (ota_update_success_outcome cfg2 st1 ⟨topicUpdate, "A", "raw"⟩ envUpdOk
    dev1 9 (by decide) (by decide) rfl rfl (by decide) (by decide) rfl).1

end OTA
